import Mathlib

/-!
Verification development for the agentsh-in-Deno-sandbox harness.

This file shallowly embeds the decision cores of the repository:
  * the exec-response classifier of `runAgentsh` in demo-network.ts
    (the function the diagnostic probes use to decide ALLOWED / BLOCKED /
    ERROR from a raw JSON response of the agentsh exec API),
  * the classifier of `execViaApi` in detect-sandbox.ts,
  * the readiness-poll shell loop of `createAgentshSandbox` in setup.ts,
  * the bootstrap failure/teardown control flow of `createAgentshSandbox`,
  * the sudoers lines written by the two bootstrap variants,
  * the pass/fail summary and exit code of test-sandbox.ts,
  * the base64 encode/decode round trip of the shell-mediated
    `writeFileToSandbox` fallback.
Each definition is translated from the TypeScript source; theorems then
settle the specification claims about those definitions.
-/

namespace Agentsh

/-- Outcome category of one exec attempt (spec glossary: ALLOWED | BLOCKED | ERROR). -/
inductive Category where
  | ALLOWED
  | BLOCKED
  | ERROR
deriving DecidableEq, Repr

/-- Embedded error object of an exec response: `result.error` in the TS
`ExecResponse` interface (fields `code`, `message`, `policy_rule`, all optional). -/
structure ErrorObj where
  code : Option String := none
  message : Option String := none
  policy_rule : Option String := none
deriving DecidableEq, Repr

/-- The `result` object of an exec response (fields `exit_code`, `stdout`,
`stderr`, `error`, all optional). -/
structure ResultObj where
  exit_code : Option Int := none
  stdout : Option String := none
  stderr : Option String := none
  error : Option ErrorObj := none
deriving DecidableEq, Repr

/-- The `guidance` object of an exec response (fields `status`, `blocked`,
`reason`, `policy_rule`, all optional). -/
structure GuidanceObj where
  status : Option String := none
  blocked : Option Bool := none
  reason : Option String := none
  policy_rule : Option String := none
deriving DecidableEq, Repr

/-- The `policy` object carried by one blocked-operation record
(fields `rule` and `message`, optional). -/
structure PolicyObj where
  rule : Option String := none
  message : Option String := none
deriving DecidableEq, Repr

/-- One record of `events.blocked_operations`. -/
structure BlockedOp where
  policy : Option PolicyObj := none
deriving DecidableEq, Repr

/-- The `events` object of an exec response. -/
structure EventsObj where
  blocked_operations : Option (List BlockedOp) := none
deriving DecidableEq, Repr

/-- A parsed exec-API response, mirroring the TS `ExecResponse` interface of
demo-network.ts (all three top-level members optional). -/
structure ExecResponse where
  result : Option ResultObj := none
  guidance : Option GuidanceObj := none
  events : Option EventsObj := none
deriving DecidableEq, Repr

/-- What the classifier receives after the transport step: either the response
file was absent (`sandbox.fs.readTextFile` threw), or it held `text`, which
`JSON.parse` either failed on (`parsed = none`) or decoded (`parsed = some j`). -/
inductive RawInput where
  | noFile
  | file (text : String) (parsed : Option ExecResponse)
deriving DecidableEq, Repr

/-- JS `s.slice(0, n)`: the first `n` characters of `s` (as done on the raw
response text before logging). -/
def sliceJS (s : String) (n : Nat) : String :=
  String.mk (s.data.take n)

/-- JS `s.trim()`: strip whitespace from both ends of the string. -/
def trimJS (s : String) : String :=
  String.mk (((s.data.dropWhile Char.isWhitespace).reverse.dropWhile Char.isWhitespace).reverse)

/-- Optional-chain accessor `json.result?.error?.code`. -/
def ExecResponse.errCode (j : ExecResponse) : Option String :=
  (j.result.bind ResultObj.error).bind ErrorObj.code

/-- Optional-chain accessor `json.result?.error?.policy_rule`. -/
def ExecResponse.errPolicyRule (j : ExecResponse) : Option String :=
  (j.result.bind ResultObj.error).bind ErrorObj.policy_rule

/-- `json.events?.blocked_operations ?? []`. -/
def ExecResponse.blockedOps (j : ExecResponse) : List BlockedOp :=
  (j.events.bind EventsObj.blocked_operations).getD []

/-- Truthiness of `json.guidance?.blocked || json.guidance?.status === "blocked"`. -/
def ExecResponse.guidanceBlocked (j : ExecResponse) : Bool :=
  (j.guidance.bind GuidanceObj.blocked).getD false
    || decide ((j.guidance.bind GuidanceObj.status) = some "blocked")

/-- `json.result?.exit_code`. -/
def ExecResponse.exitCode (j : ExecResponse) : Option Int :=
  j.result.bind ResultObj.exit_code

/-- `json.result?.stdout?.trim() ?? ""`. -/
def ExecResponse.stdoutTrim (j : ExecResponse) : String :=
  ((j.result.bind ResultObj.stdout).map trimJS).getD ""

/-- `json.result?.stderr?.trim() ?? ""`. -/
def ExecResponse.stderrTrim (j : ExecResponse) : String :=
  ((j.result.bind ResultObj.stderr).map trimJS).getD ""

namespace DemoNetwork

/-- Which branch of `runAgentsh` in demo-network.ts fired, carrying the data
that branch computes.  One constructor per return site of the source:
no response file; check 1 (explicit `E_POLICY_DENIED`); check 2 (non-empty
`events.blocked_operations`); check 3 (guidance blocked); check 4 (exit 0,
ALLOWED); check 5 (fall-through, logged as a network-level block); and the
`JSON.parse` catch. `raw` is the raw response text (the `output` variable). -/
inductive NetOutcome where
  | errNoResponse
  | blockedPolicyRule (rule : String) (raw : String)
  | blockedNetworkPolicy (rule msg : String) (raw : String)
  | blockedGuidance (rule reason : String) (raw : String)
  | allowedExit0 (stdout : String)
  | blockedNetworkLevel (exitCode : Int) (stderr : String) (raw : String)
  | errParse (raw : String)
deriving DecidableEq, Repr

/-- The classifier of `runAgentsh` (demo-network.ts, checks 1-5 plus the two
error paths), translated branch for branch from the source. -/
def runAgentsh : RawInput → NetOutcome
  | .noFile => .errNoResponse
  | .file output none => .errParse output
  | .file output (some json) =>
    if json.errCode = some "E_POLICY_DENIED" then
      .blockedPolicyRule (json.errPolicyRule.getD "unknown") output
    else
      match json.blockedOps with
      | first :: _ =>
        .blockedNetworkPolicy ((first.policy.bind PolicyObj.rule).getD "unknown")
          ((first.policy.bind PolicyObj.message).getD "") output
      | [] =>
        if json.guidanceBlocked then
          .blockedGuidance ((json.guidance.bind GuidanceObj.policy_rule).getD "unknown")
            ((json.guidance.bind GuidanceObj.reason).getD "") output
        else if json.exitCode = some 0 then
          .allowedExit0 json.stdoutTrim
        else
          .blockedNetworkLevel (json.exitCode.getD (-1)) json.stderrTrim output

/-- The `allowed` field of the `RunResult` returned by each branch. -/
def netAllowed : NetOutcome → Bool
  | .allowedExit0 _ => true
  | _ => false

/-- The `output` field of the `RunResult` returned by each branch. -/
def netOutput : NetOutcome → String
  | .errNoResponse => ""
  | .blockedPolicyRule _ raw => raw
  | .blockedNetworkPolicy _ _ raw => raw
  | .blockedGuidance _ _ raw => raw
  | .allowedExit0 stdout => stdout
  | .blockedNetworkLevel _ _ raw => raw
  | .errParse raw => raw

/-- The outcome category each branch announces on the console:
"ERROR: no response from API" and "ERROR: failed to parse response" are
ERROR; checks 1-3 log "BLOCKED ..."; check 4 logs "ALLOWED (exit 0)"; the
check-5 fall-through logs "BLOCKED (network-level, exit N)". -/
def netCategory : NetOutcome → Category
  | .errNoResponse => .ERROR
  | .blockedPolicyRule _ _ => .BLOCKED
  | .blockedNetworkPolicy _ _ _ => .BLOCKED
  | .blockedGuidance _ _ _ => .BLOCKED
  | .allowedExit0 _ => .ALLOWED
  | .blockedNetworkLevel _ _ _ => .BLOCKED
  | .errParse _ => .ERROR

/-- The console message each branch prints (data-bearing part, as in source). -/
def netLogMsg : NetOutcome → String
  | .errNoResponse => "ERROR: no response from API"
  | .blockedPolicyRule rule _ => "BLOCKED by policy rule: " ++ rule
  | .blockedNetworkPolicy rule msg _ =>
      "BLOCKED by network policy: " ++ rule ++ (if msg = "" then "" else " — " ++ msg)
  | .blockedGuidance rule reason _ =>
      "BLOCKED: " ++ rule ++ (if reason = "" then "" else " — " ++ reason)
  | .allowedExit0 stdout => "ALLOWED (exit 0): " ++ sliceJS stdout 150
  | .blockedNetworkLevel exitCode stderr _ =>
      "BLOCKED (network-level, exit " ++ toString exitCode ++ "): "
        ++ (if stderr = "" then "connection failed" else sliceJS stderr 100)
  | .errParse raw => "ERROR: failed to parse response: " ++ sliceJS raw 200

/-- The rule identifier the branch reports, when it reports one. -/
def netRule : NetOutcome → Option String
  | .blockedPolicyRule rule _ => some rule
  | .blockedNetworkPolicy rule _ _ => some rule
  | .blockedGuidance rule _ _ => some rule
  | _ => none

/-- The reason/message string the branch reports, when it reports one. -/
def netReason : NetOutcome → Option String
  | .blockedNetworkPolicy _ msg _ => some msg
  | .blockedGuidance _ reason _ => some reason
  | _ => none

end DemoNetwork

namespace Provision

/-- Sudoers line appended by setup.ts (src/unnamed/part_000, step 6):
`echo "user ALL=(ALL) NOPASSWD: /usr/bin/agentsh" >> /etc/sudoers`. -/
def setupSudoersLine : String := "user ALL=(ALL) NOPASSWD: /usr/bin/agentsh"

/-- Sudoers line appended by the setup variant bundled in test-sandbox.ts
(line 955): `echo "${sbUser} ALL=(ALL) NOPASSWD: ALL" | sudo tee -a /etc/sudoers`. -/
def testSandboxSudoersLine (sbUser : String) : String :=
  sbUser ++ " ALL=(ALL) NOPASSWD: ALL"

/-- A sudoers entry whose command list is the blanket `ALL`. -/
def grantsBlanketSudo (line : String) : Bool :=
  "NOPASSWD: ALL".data.isSuffixOf line.data

/-- A sudoers entry whose command list is exactly the agentsh binary. -/
def grantsAgentBinaryOnly (line : String) : Bool :=
  "NOPASSWD: /usr/bin/agentsh".data.isSuffixOf line.data

end Provision

end Agentsh

namespace Agentsh

open DemoNetwork Provision

/-- C1: the demo-network classifier applies its checks in strict priority
order with first match winning: explicit `E_POLICY_DENIED` error code, then
non-empty `events.blocked_operations`, then guidance-level block, then
success on exit code 0; in particular a response with both a non-empty
blocked-operations list and exit code 0 is categorized BLOCKED, not ALLOWED. -/
theorem c1_classifier_priority (raw : String) (j : ExecResponse) :
    (j.errCode = some "E_POLICY_DENIED" →
      netCategory (runAgentsh (.file raw (some j))) = .BLOCKED)
    ∧ (j.errCode ≠ some "E_POLICY_DENIED" → j.blockedOps ≠ [] →
      netCategory (runAgentsh (.file raw (some j))) = .BLOCKED)
    ∧ (j.errCode ≠ some "E_POLICY_DENIED" → j.blockedOps = [] →
        j.guidanceBlocked = true →
      netCategory (runAgentsh (.file raw (some j))) = .BLOCKED)
    ∧ (j.errCode ≠ some "E_POLICY_DENIED" → j.blockedOps = [] →
        j.guidanceBlocked = false → j.exitCode = some 0 →
      netCategory (runAgentsh (.file raw (some j))) = .ALLOWED)
    ∧ (j.blockedOps ≠ [] → j.exitCode = some 0 →
      netCategory (runAgentsh (.file raw (some j))) = .BLOCKED
      ∧ netCategory (runAgentsh (.file raw (some j))) ≠ .ALLOWED
      ∧ netAllowed (runAgentsh (.file raw (some j))) = false) := by
  refine ⟨?_, ?_, ?_, ?_, ?_⟩
  · intro hd
    simp [runAgentsh, hd, netCategory]
  · intro hd hops
    cases h : j.blockedOps with
    | nil => exact absurd h hops
    | cons first rest => simp [runAgentsh, hd, h, netCategory]
  · intro hd hops hg
    simp [runAgentsh, hd, hops, hg, netCategory]
  · intro hd hops hg he
    simp [runAgentsh, hd, hops, hg, he, netCategory]
  · intro hops he
    by_cases hd : j.errCode = some "E_POLICY_DENIED"
    · simp [runAgentsh, hd, netCategory, netAllowed]
    · cases h : j.blockedOps with
      | nil => exact absurd h hops
      | cons first rest => simp [runAgentsh, hd, h, netCategory, netAllowed]

/-- A concrete response carrying both a populated blocked-operations list and
a result with exit code 0 (the tie-break test input of the spec). -/
def tieBreakResp : ExecResponse :=
  { result := some { exit_code := some 0, stdout := some "hi" },
    events := some { blocked_operations := some [{ policy := some { rule := some "net-deny" } }] } }

/-- C1 witness: on the concrete tie-break response (populated
blocked-operations list and exit code 0) the classifier answers BLOCKED, not
ALLOWED. -/
theorem c1_classifier_priority_witness :
    netCategory (runAgentsh (.file "resp" (some tieBreakResp))) = .BLOCKED
    ∧ netAllowed (runAgentsh (.file "resp" (some tieBreakResp))) = false := by
  have h := c1_classifier_priority "resp" tieBreakResp
  have h5 := h.2.2.2.2 (by decide) (by decide)
  exact ⟨h5.1, h5.2.2⟩

/-- C2 counterexample: a parsed response matching none of the three denial
shapes, with a result whose exit code is 7, is categorized BLOCKED
(network-level) by the classifier, not ERROR as the claim states. -/
theorem c2_counterexample :
    netCategory (runAgentsh (.file "\x7b\"result\":\x7b\"exit_code\":7\x7d\x7d"
      (some { result := some { exit_code := some 7 } }))) = .BLOCKED
    ∧ Category.BLOCKED ≠ Category.ERROR := by decide

/-- C2 amended: for every parsed response matching none of the three
policy-denial shapes, the classifier's `allowed` flag is true iff the
response has a result with exit code exactly 0; in that case the outcome is
the ALLOWED branch carrying stdout trimmed of surrounding whitespace (stderr
is not copied into the returned outcome); any other such response is never
ALLOWED, but is categorized as a network-level BLOCK, not ERROR. -/
theorem c2_allowed_iff_exit0 (raw : String) (j : ExecResponse)
    (hd : j.errCode ≠ some "E_POLICY_DENIED")
    (hops : j.blockedOps = [])
    (hg : j.guidanceBlocked = false) :
    (netAllowed (runAgentsh (.file raw (some j))) = true ↔ j.exitCode = some 0)
    ∧ (j.exitCode = some 0 →
        runAgentsh (.file raw (some j)) = .allowedExit0 j.stdoutTrim)
    ∧ (j.exitCode ≠ some 0 →
        netCategory (runAgentsh (.file raw (some j))) = .BLOCKED
        ∧ netAllowed (runAgentsh (.file raw (some j))) = false) := by
  refine ⟨?_, ?_, ?_⟩
  · constructor
    · intro h
      by_cases he : j.exitCode = some 0
      · exact he
      · simp [runAgentsh, hd, hops, hg, he, netAllowed] at h
    · intro he
      simp [runAgentsh, hd, hops, hg, he, netAllowed]
  · intro he
    simp [runAgentsh, hd, hops, hg, he]
  · intro he
    simp [runAgentsh, hd, hops, hg, he, netCategory, netAllowed]

/-- A concrete clean-success response: exit code 0 with padded stdout. -/
def cleanSuccessResp : ExecResponse :=
  { result := some { exit_code := some 0, stdout := some "  Hello  " } }

/-- A concrete non-denial failure response: exit code 3, no denial signals. -/
def exit3Resp : ExecResponse :=
  { result := some { exit_code := some 3 } }

/-- C2 witness: the concrete clean-success response (exit 0, padded stdout)
is allowed with the trimmed stdout, and the concrete exit-3 response is not
allowed. -/
theorem c2_allowed_iff_exit0_witness :
    runAgentsh (.file "resp" (some cleanSuccessResp)) = .allowedExit0 "Hello"
    ∧ netAllowed (runAgentsh (.file "resp" (some exit3Resp))) = false := by
  constructor
  · have h := (c2_allowed_iff_exit0 "resp" cleanSuccessResp
      (by decide) (by decide) (by decide)).2.1 (by decide)
    rw [h]
    decide
  · have h := (c2_allowed_iff_exit0 "resp" exit3Resp
      (by decide) (by decide) (by decide)).2.2 (by decide)
    exact h.2

/-- C3: a transport failure (no response file) is classified as the
no-response ERROR ("ERROR: no response from API"), never as a parse failure;
a present-but-unparseable response is classified as a parse ERROR whose
message carries the first 200 characters of the raw text. -/
theorem c3_transport_vs_parse :
    runAgentsh .noFile = .errNoResponse
    ∧ netCategory (runAgentsh .noFile) = .ERROR
    ∧ netLogMsg (runAgentsh .noFile) = "ERROR: no response from API"
    ∧ ∀ raw : String,
        runAgentsh (.file raw none) = .errParse raw
        ∧ runAgentsh .noFile ≠ .errParse raw
        ∧ netCategory (runAgentsh (.file raw none)) = .ERROR
        ∧ netLogMsg (runAgentsh (.file raw none)) =
            "ERROR: failed to parse response: " ++ sliceJS raw 200 := by
  refine ⟨rfl, rfl, rfl, ?_⟩
  intro raw
  exact ⟨rfl, by simp [runAgentsh], rfl, rfl⟩

/-- C4: when the classifier blocks via the explicit denial-code shape, the
reported rule is the embedded `policy_rule` when present and "unknown" when
absent; when it blocks via the blocked-operations list, rule and message come
from the first record of the list, with the same "unknown"/"" defaults. -/
theorem c4_rule_extraction (raw : String) (j : ExecResponse) :
    (j.errCode = some "E_POLICY_DENIED" →
      runAgentsh (.file raw (some j)) =
        .blockedPolicyRule (j.errPolicyRule.getD "unknown") raw
      ∧ (∀ r, j.errPolicyRule = some r →
          netRule (runAgentsh (.file raw (some j))) = some r)
      ∧ (j.errPolicyRule = none →
          netRule (runAgentsh (.file raw (some j))) = some "unknown"))
    ∧ (∀ first rest, j.errCode ≠ some "E_POLICY_DENIED" →
        j.blockedOps = first :: rest →
      runAgentsh (.file raw (some j)) =
        .blockedNetworkPolicy ((first.policy.bind PolicyObj.rule).getD "unknown")
          ((first.policy.bind PolicyObj.message).getD "") raw
      ∧ (first.policy = none →
          netRule (runAgentsh (.file raw (some j))) = some "unknown"
          ∧ netReason (runAgentsh (.file raw (some j))) = some "")) := by
  constructor
  · intro hd
    refine ⟨by simp [runAgentsh, hd], ?_, ?_⟩
    · intro r hr
      simp [runAgentsh, hd, hr, netRule]
    · intro hr
      simp [runAgentsh, hd, hr, netRule]
  · intro first rest hd hops
    refine ⟨by simp [runAgentsh, hd, hops], ?_⟩
    intro hp
    simp [runAgentsh, hd, hops, hp, netRule, netReason]

/-- A concrete explicit-denial response carrying an embedded policy rule. -/
def denialWithRuleResp : ExecResponse :=
  { result := some { error := some { code := some "E_POLICY_DENIED", policy_rule := some "no-sudo" } } }

/-- A concrete explicit-denial response with no embedded policy rule. -/
def denialNoRuleResp : ExecResponse :=
  { result := some { error := some { code := some "E_POLICY_DENIED" } } }

/-- First record of the concrete blocked-operations list below. -/
def blockedListRespOp0 : BlockedOp :=
  { policy := some { rule := some "net-cidr", message := some "denied" } }

/-- Second record of the concrete blocked-operations list below. -/
def blockedListRespOp1 : BlockedOp :=
  { policy := some { rule := some "other" } }

/-- A concrete response whose only denial signal is a two-record
blocked-operations list with rules and messages. -/
def blockedListResp : ExecResponse :=
  { events := some { blocked_operations := some [blockedListRespOp0, blockedListRespOp1] } }

/-- C4 witness: concrete responses for both blocked shapes, with and without
embedded rule identifiers; the list shape takes rule and message from the
first record. -/
theorem c4_rule_extraction_witness :
    runAgentsh (.file "resp" (some denialWithRuleResp)) = .blockedPolicyRule "no-sudo" "resp"
    ∧ runAgentsh (.file "resp" (some denialNoRuleResp)) = .blockedPolicyRule "unknown" "resp"
    ∧ runAgentsh (.file "resp" (some blockedListResp))
      = .blockedNetworkPolicy "net-cidr" "denied" "resp" := by
  refine ⟨?_, ?_, ?_⟩
  · have h := ((c4_rule_extraction "resp" denialWithRuleResp).1 (by decide)).1
    rw [h]
    decide
  · have h := ((c4_rule_extraction "resp" denialNoRuleResp).1 (by decide)).1
    rw [h]
    decide
  · have h := ((c4_rule_extraction "resp" blockedListResp).2
      blockedListRespOp0 [blockedListRespOp1] (by decide) (by decide)).1
    rw [h]
    decide

/-- C5: the claim says the sudoers entry written during bootstrap names
exactly the agent executable.  The setup.ts variant does; the setup variant
bundled in test-sandbox.ts instead writes a blanket `NOPASSWD: ALL` entry
for the sandbox user, contradicting the step's own "passwordless sudo for
agentsh" description. -/
theorem c5_sudoers_divergence :
    grantsAgentBinaryOnly setupSudoersLine = true
    ∧ grantsBlanketSudo setupSudoersLine = false
    ∧ testSandboxSudoersLine "user" = "user ALL=(ALL) NOPASSWD: ALL"
    ∧ grantsBlanketSudo (testSandboxSudoersLine "user") = true
    ∧ grantsAgentBinaryOnly (testSandboxSudoersLine "user") = false := by decide

end Agentsh

namespace Agentsh.DetectSandbox

/-- The record returned by each branch of `execViaApi` in detect-sandbox.ts:
`{ exitCode, stdout, stderr, blocked, policyRule }`. -/
structure ApiResult where
  exitCode : Int
  stdout : String
  stderr : String
  blocked : Bool
  policyRule : String
deriving DecidableEq, Repr

/-- The classifier of `execViaApi` (detect-sandbox.ts lines 210-238),
translated branch for branch.  Unlike the demo-network classifier it has no
blocked-operations check: it tests only the explicit `E_POLICY_DENIED` code
and the guidance object, then falls through to copying exit code and trimmed
stdout/stderr. -/
def execViaApi : RawInput → ApiResult
  | .noFile =>
    { exitCode := -1, stdout := "", stderr := "no API response", blocked := false, policyRule := "" }
  | .file output none =>
    { exitCode := -1, stdout := "", stderr := "parse error: " ++ sliceJS output 200,
      blocked := false, policyRule := "" }
  | .file _ (some json) =>
    if json.errCode = some "E_POLICY_DENIED" then
      { exitCode := -1, stdout := "",
        stderr := ((json.result.bind ResultObj.error).bind ErrorObj.message).getD "",
        blocked := true, policyRule := json.errPolicyRule.getD "unknown" }
    else if json.guidanceBlocked then
      { exitCode := -1, stdout := "",
        stderr := (json.guidance.bind GuidanceObj.reason).getD "",
        blocked := true, policyRule := (json.guidance.bind GuidanceObj.policy_rule).getD "unknown" }
    else
      { exitCode := json.exitCode.getD (-1), stdout := json.stdoutTrim,
        stderr := json.stderrTrim, blocked := false, policyRule := "" }

/-- The truthiness test `json.guidance?.blocked || json.guidance?.status ===
"blocked"` holds exactly when the guidance object carries `blocked: true` or
`status: "blocked"`. -/
theorem guidanceBlocked_iff (j : ExecResponse) :
    j.guidanceBlocked = true ↔
      ((j.guidance.bind GuidanceObj.blocked) = some true
        ∨ (j.guidance.bind GuidanceObj.status) = some "blocked") := by
  unfold ExecResponse.guidanceBlocked
  cases h : j.guidance.bind GuidanceObj.blocked with
  | none => simp [h]
  | some b => cases b <;> simp [h]

end Agentsh.DetectSandbox

namespace Agentsh

open DetectSandbox

/-- C9: the `blocked` flag returned by the detect-sandbox classifier is true
iff the response carries the explicit `E_POLICY_DENIED` code or a guidance
object with `blocked: true` or `status: "blocked"`; a response whose only
denial signal is a non-empty `events.blocked_operations` list comes back with
`blocked = false`. -/
theorem c9_detect_ignores_blocked_ops (raw : String) (j : ExecResponse) :
    ((execViaApi (.file raw (some j))).blocked = true ↔
      (j.errCode = some "E_POLICY_DENIED"
        ∨ (j.guidance.bind GuidanceObj.blocked) = some true
        ∨ (j.guidance.bind GuidanceObj.status) = some "blocked"))
    ∧ (j.errCode ≠ some "E_POLICY_DENIED" → j.guidanceBlocked = false →
        j.blockedOps ≠ [] →
        (execViaApi (.file raw (some j))).blocked = false) := by
  constructor
  · by_cases hd : j.errCode = some "E_POLICY_DENIED"
    · simp [execViaApi, hd]
    · by_cases hg : j.guidanceBlocked
      · simp [execViaApi, hd, hg]
        exact (guidanceBlocked_iff j).mp hg
      · simp [execViaApi, hd, hg]
        have h2 : ¬((j.guidance.bind GuidanceObj.blocked) = some true
            ∨ (j.guidance.bind GuidanceObj.status) = some "blocked") :=
          fun hcontra => hg ((guidanceBlocked_iff j).mpr hcontra)
        exact ⟨fun ha => h2 (Or.inl ha), fun hb => h2 (Or.inr hb)⟩
  · intro hd hg _
    simp [execViaApi, hd, hg]

/-- A concrete response whose only denial signal is a populated
blocked-operations list (one record), used to witness C9. -/
def opsOnlyResp : ExecResponse :=
  { result := some { exit_code := some 0 },
    events := some { blocked_operations := some [{ policy := some { rule := some "net-deny" } }] } }

/-- A concrete response whose guidance object says `blocked: true`. -/
def guidanceOnlyResp : ExecResponse :=
  { guidance := some { blocked := some true } }

/-- C9 witness: the detect-sandbox classifier reports `blocked = false` on
the concrete blocked-operations-only response, and `blocked = true` on the
concrete guidance-blocked response. -/
theorem c9_detect_ignores_blocked_ops_witness :
    (execViaApi (.file "resp" (some opsOnlyResp))).blocked = false
    ∧ (execViaApi (.file "resp" (some guidanceOnlyResp))).blocked = true := by
  constructor
  · exact (c9_detect_ignores_blocked_ops "resp" opsOnlyResp).2
      (by decide) (by decide) (by decide)
  · exact ((c9_detect_ignores_blocked_ops "resp" guidanceOnlyResp).1).mpr
      (Or.inr (Or.inl (by decide)))

end Agentsh

namespace Agentsh.Readiness

/-- The readiness shell loop of createAgentshSandbox:
`for i in $(seq 1 30); do if curl -sf http://127.0.0.1:18080/health ...; then
exit 0; fi; sleep 0.5; done; exit 1`.  `pollFrom healthy i fuel` runs
attempts `i, i+1, ...` while `fuel` loop iterations remain; a successful
health probe on attempt `j` is `healthy j = true`.  It returns the attempt
number of the first success, or `none` when every remaining attempt fails. -/
def pollFrom (healthy : Nat → Bool) (i : Nat) : Nat → Option Nat
  | 0 => none
  | fuel + 1 => if healthy i then some i else pollFrom healthy (i + 1) fuel

/-- `seq 1 30`: the loop makes at most 30 attempts. -/
def seqAttempts : Nat := 30

/-- `sleep 0.5` between failed attempts, in tenths of a second. -/
def sleepTenths : Nat := 5

/-- The advertised total timeout ("failed to start within 15s"), in tenths of
a second. -/
def timeoutTenths : Nat := 150

/-- The readiness wait: poll the health endpoint on attempts 1..30. -/
def waitForHealth (healthy : Nat → Bool) : Option Nat :=
  pollFrom healthy 1 seqAttempts

/-- Exit code of the readiness shell command: `exit 0` on the first success,
`exit 1` after the loop exhausts its attempts. -/
def waitExitCode (healthy : Nat → Bool) : Nat :=
  match waitForHealth healthy with
  | some _ => 0
  | none => 1

/-- A successful poll returns the first healthy attempt, within the fuel
window. -/
theorem pollFrom_eq_some {healthy : Nat → Bool} :
    ∀ (fuel i k : Nat), pollFrom healthy i fuel = some k →
      i ≤ k ∧ k < i + fuel ∧ healthy k = true
        ∧ ∀ j, i ≤ j → j < k → healthy j = false
  | 0, i, k => by simp [pollFrom]
  | fuel + 1, i, k => by
    intro h
    rw [pollFrom] at h
    by_cases hi : healthy i
    · rw [if_pos hi] at h
      obtain rfl : i = k := Option.some.inj h
      exact ⟨Nat.le_refl i, by omega, hi, fun j hj hj2 => absurd hj2 (by omega)⟩
    · rw [if_neg hi] at h
      obtain ⟨h1, h2, h3, h4⟩ := pollFrom_eq_some fuel (i + 1) k h
      refine ⟨by omega, by omega, h3, ?_⟩
      intro j hj hjk
      rcases Nat.eq_or_lt_of_le hj with heq | hlt
      · subst heq
        exact Bool.eq_false_iff.mpr hi
      · exact h4 j (by omega) hjk

/-- The poll fails exactly when every attempt in the fuel window fails. -/
theorem pollFrom_eq_none {healthy : Nat → Bool} :
    ∀ (fuel i : Nat), pollFrom healthy i fuel = none ↔
      ∀ j, i ≤ j → j < i + fuel → healthy j = false
  | 0, i => by
    simp [pollFrom]
    intro j hj hj2
    exact absurd hj2 (by omega)
  | fuel + 1, i => by
    rw [pollFrom]
    by_cases hi : healthy i
    · rw [if_pos hi]
      constructor
      · intro h
        exact absurd h (by simp)
      · intro h
        have hfalse := h i (Nat.le_refl i) (by omega)
        rw [hi] at hfalse
        exact absurd hfalse (by simp)
    · rw [if_neg hi]
      rw [pollFrom_eq_none fuel (i + 1)]
      constructor
      · intro h j hj hj2
        rcases Nat.eq_or_lt_of_le hj with heq | hlt
        · subst heq
          exact Bool.eq_false_iff.mpr hi
        · exact h j (by omega) (by omega)
      · intro h j hj hj2
        exact h j (by omega) (by omega)

/-- The loop never consults attempts beyond its fuel window. -/
theorem pollFrom_congr {h1 h2 : Nat → Bool} :
    ∀ (fuel i : Nat), (∀ j, i ≤ j → j < i + fuel → h1 j = h2 j) →
      pollFrom h1 i fuel = pollFrom h2 i fuel
  | 0, i => by
    intro _
    rfl
  | fuel + 1, i => by
    intro hagree
    rw [pollFrom, pollFrom, hagree i (Nat.le_refl i) (by omega)]
    by_cases hi : h2 i
    · rw [if_pos hi, if_pos hi]
    · rw [if_neg hi, if_neg hi]
      exact pollFrom_congr fuel (i + 1) (fun j hj hj2 => hagree j (by omega) (by omega))

end Agentsh.Readiness

namespace Agentsh

open Readiness

/-- C6: the readiness wait polls the health endpoint every 0.5 seconds for a
total of 15 seconds (at most 30 attempts: 30 iterations of 0.5 s); it
returns success on the first healthy attempt, exits with failure when all 30
attempts fail, and never returns success based on probes beyond the window
(a predicate that only becomes healthy after attempt 30 still fails). -/
theorem c6_readiness_poll (healthy : Nat → Bool) :
    sleepTenths = 5
    ∧ seqAttempts = 30
    ∧ seqAttempts * sleepTenths = timeoutTenths
    ∧ timeoutTenths = 150
    ∧ (∀ k, waitForHealth healthy = some k →
        1 ≤ k ∧ k ≤ 30 ∧ healthy k = true
          ∧ ∀ j, 1 ≤ j → j < k → healthy j = false)
    ∧ (waitExitCode healthy = 1 ↔ ∀ j, 1 ≤ j → j ≤ 30 → healthy j = false)
    ∧ (∀ h2 : Nat → Bool, (∀ j, 1 ≤ j → j ≤ 30 → healthy j = h2 j) →
        waitForHealth healthy = waitForHealth h2) := by
  refine ⟨rfl, rfl, rfl, rfl, ?_, ?_, ?_⟩
  · intro k hk
    obtain ⟨h1, h2, h3, h4⟩ := pollFrom_eq_some seqAttempts 1 k hk
    exact ⟨h1, by revert h2; unfold seqAttempts; omega, h3, h4⟩
  · constructor
    · intro h j hj hj2
      cases hw : waitForHealth healthy with
      | some k =>
        unfold waitExitCode at h
        rw [hw] at h
        exact absurd h (by simp)
      | none =>
        have hw2 : pollFrom healthy 1 seqAttempts = none := hw
        have hall := (@pollFrom_eq_none healthy seqAttempts 1).mp hw2
        exact hall j hj (by revert hj2; unfold seqAttempts; omega)
    · intro h
      cases hw : waitForHealth healthy with
      | some k =>
        obtain ⟨h1, h2, h3, _⟩ := pollFrom_eq_some seqAttempts 1 k hw
        have hf : healthy k = false := h k h1 (by revert h2; unfold seqAttempts; omega)
        rw [h3] at hf
        exact absurd hf (by simp)
      | none =>
        unfold waitExitCode
        rw [hw]
  · intro h2 hagree
    exact pollFrom_congr seqAttempts 1
      (fun j hj hj2 => hagree j hj (by revert hj2; unfold seqAttempts; omega))

/-- A concrete health predicate that becomes (and stays) healthy on attempt 3. -/
def healthyProbe3 : Nat → Bool := fun i => decide (3 ≤ i)

/-- A concrete health predicate that only becomes healthy on attempt 31,
after the poll window has closed. -/
def healthyProbe31 : Nat → Bool := fun i => decide (31 ≤ i)

/-- C6 witness: with a predicate healthy from attempt 3 on, the wait succeeds
on attempt 3 (after two failed attempts); with a predicate healthy only from
attempt 31 on, the wait exits with failure even though the predicate
eventually becomes true. -/
theorem c6_readiness_poll_witness :
    waitForHealth healthyProbe3 = some 3
    ∧ healthyProbe3 3 = true
    ∧ (∀ j, 1 ≤ j → j < 3 → healthyProbe3 j = false)
    ∧ waitExitCode healthyProbe31 = 1
    ∧ healthyProbe31 31 = true := by
  refine ⟨by decide, by decide, ?_, ?_, by decide⟩
  · have h := ((c6_readiness_poll healthyProbe3).2.2.2.2.1) 3 (by decide)
    exact h.2.2.2
  · exact ((c6_readiness_poll healthyProbe31).2.2.2.2.2.1).mpr
      (fun j hj hj2 => by simp [healthyProbe31]; omega)

end Agentsh

namespace Agentsh.Bootstrap

/-- Run the bootstrap steps of `createAgentshSandbox` in order after the
sandbox is acquired: each `await sandbox.sh...` either succeeds (`Except.ok`)
or throws, aborting the `try` block with the first error. -/
def runSteps : List (Except String Unit) → Except String Unit
  | [] => .ok ()
  | .ok () :: rest => runSteps rest
  | .error e :: _ => .error e

/-- Outcome of the `try`/`catch` of `createAgentshSandbox`: the propagated
result plus how many times the handler called `sandbox.close()`. -/
structure FlowResult where
  result : Except String Unit
  closeCalls : Nat
deriving Repr

/-- The `catch (err)` handler: `try { await sandbox.close() } catch { }` —
one close call whose own outcome (`closeResult`) is discarded by the empty
inner catch — then `throw err`, rethrowing the original error. -/
def catchHandler (err : String) (closeResult : Except String Unit) : FlowResult :=
  match closeResult with
  | .ok () => { result := .error err, closeCalls := 1 }
  | .error _ => { result := .error err, closeCalls := 1 }

/-- The whole `try`/`catch` of `createAgentshSandbox`: on success the ready
sandbox is returned (the handler never runs, no close); on the first step
failure the handler runs once and rethrows. -/
def createFlow (steps : List (Except String Unit)) (closeResult : Except String Unit) : FlowResult :=
  match runSteps steps with
  | .ok () => { result := .ok (), closeCalls := 0 }
  | .error e => catchHandler e closeResult

/-- Running steps stops at the first failing step and yields its error. -/
theorem runSteps_first_error :
    ∀ (pre : List (Except String Unit)), (∀ s ∈ pre, s = .ok ()) →
      ∀ (e : String) (post : List (Except String Unit)),
        runSteps (pre ++ .error e :: post) = .error e
  | [], _ => fun e post => rfl
  | s :: pre, h => fun e post => by
    have hs : s = .ok () := h s (by simp)
    subst hs
    rw [List.cons_append, runSteps]
    exact runSteps_first_error pre (fun t ht => h t (by simp [ht])) e post

/-- All-ok steps run to completion. -/
theorem runSteps_all_ok :
    ∀ (steps : List (Except String Unit)), (∀ s ∈ steps, s = .ok ()) →
      runSteps steps = .ok ()
  | [], _ => rfl
  | s :: steps, h => by
    have hs : s = .ok () := h s (by simp)
    subst hs
    rw [runSteps]
    exact runSteps_all_ok steps (fun t ht => h t (by simp [ht]))

end Agentsh.Bootstrap

namespace Agentsh

open Bootstrap

/-- C7: when any bootstrap step after sandbox acquisition fails, the sandbox
is closed exactly once, the close's own outcome (success or error) is
swallowed and cannot change the flow's result, and the first failing step's
original error is what propagates; when every step succeeds, the handler
never runs and no close happens here. -/
theorem c7_teardown_on_failure (pre post : List (Except String Unit))
    (e : String) (closeResult : Except String Unit)
    (hpre : ∀ s ∈ pre, s = .ok ()) :
    (createFlow (pre ++ .error e :: post) closeResult).closeCalls = 1
    ∧ (createFlow (pre ++ .error e :: post) closeResult).result = .error e
    ∧ (∀ closeResult2, createFlow (pre ++ .error e :: post) closeResult2
        = createFlow (pre ++ .error e :: post) closeResult)
    ∧ (∀ steps, (∀ s ∈ steps, s = .ok ()) →
        createFlow steps closeResult = { result := .ok (), closeCalls := 0 }) := by
  have hrun := runSteps_first_error pre hpre e post
  refine ⟨?_, ?_, ?_, ?_⟩
  · unfold createFlow
    rw [hrun]
    cases closeResult with
    | ok u => cases u; rfl
    | error e2 => rfl
  · unfold createFlow
    rw [hrun]
    cases closeResult with
    | ok u => cases u; rfl
    | error e2 => rfl
  · intro closeResult2
    unfold createFlow
    rw [hrun]
    cases closeResult with
    | ok u =>
      cases u
      cases closeResult2 with
      | ok u2 => cases u2; rfl
      | error e2 => rfl
    | error e2 =>
      cases closeResult2 with
      | ok u2 => cases u2; rfl
      | error e3 => rfl
  · intro steps hok
    unfold createFlow
    rw [runSteps_all_ok steps hok]

/-- C7 witness: a concrete bootstrap where the second step fails and the
close itself also fails: close is called once, the close failure is
swallowed, and the step's error "apt failed" is what propagates. -/
theorem c7_teardown_on_failure_witness :
    (createFlow [.ok (), .error "apt failed", .ok ()] (.error "close failed")).closeCalls = 1
    ∧ (createFlow [.ok (), .error "apt failed", .ok ()] (.error "close failed")).result
        = .error "apt failed"
    ∧ createFlow [.ok (), .ok ()] (.error "close failed")
        = { result := .ok (), closeCalls := 0 } := by
  have h := c7_teardown_on_failure [Except.ok ()] [Except.ok ()] "apt failed"
    (.error "close failed") (by intro s hs; simpa using hs)
  exact ⟨h.1, h.2.1, h.2.2.2 [.ok (), .ok ()] (by intro s hs; fin_cases hs <;> rfl)⟩

end Agentsh

namespace Agentsh.TestSummary

/-- The module-level `passed`/`failed` counters of test-sandbox.ts after the
test catalogue has run: each test calls `pass()` (incrementing `passed`) or
`fail()` (incrementing `failed`).  `verdicts` lists each test's boolean
verdict in order; the pair is (passed, failed). -/
def countVerdicts : List Bool → Nat × Nat
  | [] => (0, 0)
  | true :: rest => ((countVerdicts rest).1 + 1, (countVerdicts rest).2)
  | false :: rest => ((countVerdicts rest).1, (countVerdicts rest).2 + 1)

/-- The final summary printed by `main`:
`console.log(`\nResults: ${passed} passed, ${failed} failed`)`. -/
def summaryLine (passed failedCount : Nat) : String :=
  "Results: " ++ toString passed ++ " passed, " ++ toString failedCount ++ " failed"

/-- The process exit code of `main`: `if (failed > 0) Deno.exit(1)`,
otherwise the process ends normally with code 0. -/
def processExitCode (failedCount : Nat) : Nat :=
  if failedCount > 0 then 1 else 0

/-- The failed counter is zero exactly when no verdict is false. -/
theorem countVerdicts_failed_zero :
    ∀ verdicts : List Bool, (countVerdicts verdicts).2 = 0 ↔ false ∉ verdicts
  | [] => by simp [countVerdicts]
  | true :: rest => by
    simp [countVerdicts, countVerdicts_failed_zero rest]
  | false :: rest => by
    simp [countVerdicts]

/-- The two counters add up to the number of scenarios run. -/
theorem countVerdicts_total :
    ∀ verdicts : List Bool,
      (countVerdicts verdicts).1 + (countVerdicts verdicts).2 = verdicts.length
  | [] => rfl
  | true :: rest => by
    have h := countVerdicts_total rest
    simp [countVerdicts]
    omega
  | false :: rest => by
    have h := countVerdicts_total rest
    simp [countVerdicts]
    omega

end Agentsh.TestSummary

namespace Agentsh

open TestSummary

/-- C8: after the catalogue runs, the program prints one summary line carrying
the pass count and the fail count (which together account for every
scenario), and the process exit code is non-zero iff at least one scenario
failed, zero when every scenario passed. -/
theorem c8_summary_and_exit (verdicts : List Bool) :
    summaryLine (countVerdicts verdicts).1 (countVerdicts verdicts).2
      = "Results: " ++ toString (countVerdicts verdicts).1 ++ " passed, "
        ++ toString (countVerdicts verdicts).2 ++ " failed"
    ∧ (countVerdicts verdicts).1 + (countVerdicts verdicts).2 = verdicts.length
    ∧ (processExitCode (countVerdicts verdicts).2 ≠ 0 ↔ false ∈ verdicts)
    ∧ ((∀ v ∈ verdicts, v = true) → processExitCode (countVerdicts verdicts).2 = 0) := by
  refine ⟨rfl, countVerdicts_total verdicts, ?_, ?_⟩
  · unfold processExitCode
    by_cases h : (countVerdicts verdicts).2 > 0
    · rw [if_pos h]
      have : false ∈ verdicts := by
        by_contra hc
        have := (countVerdicts_failed_zero verdicts).mpr hc
        omega
      simp [this]
    · rw [if_neg h]
      have hzero : (countVerdicts verdicts).2 = 0 := by omega
      have := (countVerdicts_failed_zero verdicts).mp hzero
      simp [this]
  · intro hall
    have : false ∉ verdicts := by
      intro hc
      exact absurd (hall false hc) (by simp)
    have hzero := (countVerdicts_failed_zero verdicts).mpr this
    unfold processExitCode
    rw [hzero]
    simp

/-- C8 witness: a concrete all-pass catalogue exits 0; a concrete catalogue
with one failure exits 1. -/
theorem c8_summary_and_exit_witness :
    processExitCode (countVerdicts [true, true, true]).2 = 0
    ∧ processExitCode (countVerdicts [true, false, true]).2 ≠ 0 := by
  constructor
  · exact (c8_summary_and_exit [true, true, true]).2.2.2 (by decide)
  · exact ((c8_summary_and_exit [true, false, true]).2.2.1).mpr (by decide)

end Agentsh

namespace Agentsh.Base64

/-- The base64 alphabet used by `btoa` and `base64 -d`. -/
def b64Alphabet : List Char :=
  "ABCDEFGHIJKLMNOPQRSTUVWXYZabcdefghijklmnopqrstuvwxyz0123456789+/".data

/-- The character encoding sextet `n` (0..63). -/
def b64Char (n : Nat) : Char := b64Alphabet.getD n 'A'

/-- The sextet a base64 character decodes to. -/
def b64Index (c : Char) : Option Nat := b64Alphabet.findIdx? (fun d => d = c)

/-- Decoding inverts encoding on every sextet. -/
theorem b64Index_b64Char : ∀ n, n < 64 → b64Index (b64Char n) = some n := by decide

/-- No sextet encodes to the padding character. -/
theorem b64Char_ne_pad : ∀ n, n < 64 → b64Char n ≠ '=' := by decide

/-- No sextet encodes to a newline. -/
theorem b64Char_ne_lf : ∀ n, n < 64 → b64Char n ≠ '\n' := by decide

/-- `btoa`, working directly on the byte values of its binary-string input:
three bytes become four alphabet characters; a trailing group of one or two
bytes is padded with `=`. -/
def encodeChunks : List Nat → List Char
  | [] => []
  | [a] => [b64Char (a / 4), b64Char (a % 4 * 16), '=', '=']
  | [a, b] => [b64Char (a / 4), b64Char (a % 4 * 16 + b / 16), b64Char (b % 16 * 4), '=']
  | a :: b :: c :: rest =>
    b64Char (a / 4) :: b64Char (a % 4 * 16 + b / 16) :: b64Char (b % 16 * 4 + c / 64)
      :: b64Char (c % 64) :: encodeChunks rest

/-- `base64 -d` on a whitespace-free base64 text: decode four characters at a
time, honouring `=` padding in the final group; reject malformed input. -/
def decodeChunks : List Char → Option (List Nat)
  | [] => some []
  | c0 :: c1 :: c2 :: c3 :: rest =>
    if c2 = '=' ∧ c3 = '=' ∧ rest = [] then
      match b64Index c0, b64Index c1 with
      | some s0, some s1 => some [s0 * 4 + s1 / 16]
      | _, _ => none
    else if c3 = '=' ∧ rest = [] then
      match b64Index c0, b64Index c1, b64Index c2 with
      | some s0, some s1, some s2 => some [s0 * 4 + s1 / 16, s1 % 16 * 16 + s2 / 4]
      | _, _, _ => none
    else
      match b64Index c0, b64Index c1, b64Index c2, b64Index c3, decodeChunks rest with
      | some s0, some s1, some s2, some s3, some tail =>
        some ((s0 * 4 + s1 / 16) :: (s1 % 16 * 16 + s2 / 4) :: (s2 % 4 * 64 + s3) :: tail)
      | _, _, _, _, _ => none
  | _ => none

/-- Decoding inverts encoding on every byte sequence (bytes are values
below 256, as produced by `TextEncoder`). -/
theorem decodeChunks_encodeChunks :
    ∀ bs : List Nat, (∀ b ∈ bs, b < 256) → decodeChunks (encodeChunks bs) = some bs
  | [], _ => rfl
  | [a], h => by
    have ha : a < 256 := h a (by simp)
    have h0 := b64Index_b64Char (a / 4) (by omega)
    have h1 := b64Index_b64Char (a % 4 * 16) (by omega)
    rw [encodeChunks, decodeChunks, if_pos ⟨rfl, rfl, rfl⟩, h0, h1]
    simp only [Option.some.injEq, List.cons.injEq, and_true]
    omega
  | [a, b], h => by
    have ha : a < 256 := h a (by simp)
    have hb : b < 256 := h b (by simp)
    have h0 := b64Index_b64Char (a / 4) (by omega)
    have h1 := b64Index_b64Char (a % 4 * 16 + b / 16) (by omega)
    have h2 := b64Index_b64Char (b % 16 * 4) (by omega)
    have hne : ¬(b64Char (b % 16 * 4) = '=' ∧ ('=' : Char) = '=' ∧ ([] : List Char) = []) :=
      fun hc => b64Char_ne_pad (b % 16 * 4) (by omega) hc.1
    rw [encodeChunks, decodeChunks, if_neg hne, if_pos ⟨rfl, rfl⟩, h0, h1, h2]
    simp only [Option.some.injEq, List.cons.injEq, and_true]
    constructor
    · omega
    · omega
  | a :: b :: c :: rest, h => by
    have ha : a < 256 := h a (by simp)
    have hb : b < 256 := h b (by simp)
    have hc : c < 256 := h c (by simp)
    have h0 := b64Index_b64Char (a / 4) (by omega)
    have h1 := b64Index_b64Char (a % 4 * 16 + b / 16) (by omega)
    have h2 := b64Index_b64Char (b % 16 * 4 + c / 64) (by omega)
    have h3 := b64Index_b64Char (c % 64) (by omega)
    have htail := decodeChunks_encodeChunks rest (fun x hx => h x (by simp [hx]))
    have hne1 : ¬(b64Char (b % 16 * 4 + c / 64) = '='
        ∧ b64Char (c % 64) = '=' ∧ encodeChunks rest = []) :=
      fun hcon => b64Char_ne_pad (b % 16 * 4 + c / 64) (by omega) hcon.1
    have hne2 : ¬(b64Char (c % 64) = '=' ∧ encodeChunks rest = []) :=
      fun hcon => b64Char_ne_pad (c % 64) (by omega) hcon.1
    rw [encodeChunks, decodeChunks, if_neg hne1, if_neg hne2, h0, h1, h2, h3, htail]
    simp only [Option.some.injEq, List.cons.injEq, and_true]
    refine ⟨by omega, by omega, by omega⟩

end Agentsh.Base64

namespace Agentsh.Base64

/-- Every character of an encoded chunk list is an alphabet character or the
padding `=`; none is a newline. -/
theorem encodeChunks_ne_lf :
    ∀ bs : List Nat, (∀ b ∈ bs, b < 256) → ∀ ch ∈ encodeChunks bs, ch ≠ '\n'
  | [], _ => by simp [encodeChunks]
  | [a], h => by
    have ha : a < 256 := h a (by simp)
    intro ch hch
    rw [encodeChunks] at hch
    simp only [List.mem_cons, List.not_mem_nil, or_false] at hch
    rcases hch with rfl | rfl | rfl | rfl
    · exact b64Char_ne_lf (a / 4) (by omega)
    · exact b64Char_ne_lf (a % 4 * 16) (by omega)
    · decide
    · decide
  | [a, b], h => by
    have ha : a < 256 := h a (by simp)
    have hb : b < 256 := h b (by simp)
    intro ch hch
    rw [encodeChunks] at hch
    simp only [List.mem_cons, List.not_mem_nil, or_false] at hch
    rcases hch with rfl | rfl | rfl | rfl
    · exact b64Char_ne_lf (a / 4) (by omega)
    · exact b64Char_ne_lf (a % 4 * 16 + b / 16) (by omega)
    · exact b64Char_ne_lf (b % 16 * 4) (by omega)
    · decide
  | a :: b :: c :: rest, h => by
    have ha : a < 256 := h a (by simp)
    have hb : b < 256 := h b (by simp)
    have hc : c < 256 := h c (by simp)
    have htail := encodeChunks_ne_lf rest (fun x hx => h x (by simp [hx]))
    intro ch hch
    rw [encodeChunks] at hch
    simp only [List.mem_cons] at hch
    rcases hch with rfl | rfl | rfl | rfl | hmem
    · exact b64Char_ne_lf (a / 4) (by omega)
    · exact b64Char_ne_lf (a % 4 * 16 + b / 16) (by omega)
    · exact b64Char_ne_lf (b % 16 * 4 + c / 64) (by omega)
    · exact b64Char_ne_lf (c % 64) (by omega)
    · exact htail ch hmem

/-- The binary string handed to `btoa` by writeFileToSandbox:
`new TextEncoder().encode(content).reduce((acc, byte) => acc +
String.fromCharCode(byte), "")` maps each UTF-8 byte of the content to one
character; `btoa` then base64-encodes exactly those byte values, so we work
on the byte values directly. -/
def btoaBytes (bytes : List Nat) : String := String.mk (encodeChunks bytes)

/-- `echo ${encoded}` emits the encoded text followed by one newline. -/
def echoLine (s : String) : String := s ++ "\n"

/-- `base64 -d`: newline characters in the input are ignored, the remaining
text is decoded as base64 chunks. -/
def base64d (s : String) : Option (List Nat) :=
  decodeChunks (s.data.filter (fun c => c ≠ '\n'))

/-- The shell fallback of writeFileToSandbox,
`sandbox.sh\`echo ${encoded} | base64 -d > ${path}\``: the byte sequence the
pipeline writes to the target file, given the UTF-8 bytes of the content. -/
def shellWriteBytes (bytes : List Nat) : Option (List Nat) :=
  base64d (echoLine (btoaBytes bytes))

end Agentsh.Base64

namespace Agentsh

open Base64

/-- C10: the shell-mediated file-write fallback round-trips: for every
content (given by its UTF-8 bytes, each below 256), piping the `btoa` output
through `base64 -d` reproduces exactly the original bytes, so the file
written inside the sandbox equals the content passed in. -/
theorem c10_base64_roundtrip (bytes : List Nat) (h : ∀ b ∈ bytes, b < 256) :
    shellWriteBytes bytes = some bytes := by
  unfold shellWriteBytes base64d echoLine btoaBytes
  rw [String.data_append]
  have hdata : (String.mk (encodeChunks bytes)).data = encodeChunks bytes := rfl
  rw [hdata]
  have hlf : ("\n" : String).data = ['\n'] := rfl
  rw [hlf, List.filter_append]
  have h1 : (encodeChunks bytes).filter (fun c => decide (c ≠ '\n')) = encodeChunks bytes := by
    apply List.filter_eq_self.mpr
    intro ch hch
    simp only [decide_eq_true_eq]
    exact encodeChunks_ne_lf bytes h ch hch
  have h2 : (['\n'] : List Char).filter (fun c => decide (c ≠ '\n')) = [] := by decide
  rw [h1, h2, List.append_nil]
  exact decodeChunks_encodeChunks bytes h

/-- C10 witness: the UTF-8 bytes of a concrete non-ASCII content (the euro
sign) survive the btoa / base64 -d round trip unchanged. -/
theorem c10_base64_roundtrip_witness :
    (∀ b ∈ [226, 130, 172], b < 256)
    ∧ shellWriteBytes [226, 130, 172] = some [226, 130, 172] :=
  ⟨by decide, c10_base64_roundtrip [226, 130, 172] (by decide)⟩

end Agentsh
